import Mathlib

/-!
Verification of the auTO Discord tournament bot against its specification.

This file gives a shallow embedding, in Lean, of the parts of
`src/auTO/auTO.py` and `src/challonge.py` that the specification talks
about, and proves (or refutes) the corresponding properties.

Conventions of the embedding:
* Python integers are `Nat`/`Int` (no overflow in CPython).
* Python strings are Lean `String`; `str.strip()` is `pyStrip`,
  `str.lower()` is `pyLower`, `str.split` is `pySplit` (kernel-reducible
  counterparts of the core functions, agreeing with CPython on the ASCII
  data involved).
* Python sets of strings are `Finset String`; `set.add` is `insert`,
  `set.remove` is `erase` guarded by membership (CPython raises
  `KeyError` when the element is absent).
* Fallible Python code returns `Option`/`Except`.
-/

namespace AuTO

/-! ## Exact ceiling base-2 logarithm

`src/challonge.py` computes `int(math.ceil(math.log(n, 2)))`.  We embed
that quantity exactly: `ceilLog2 n` is the least `k` with `n ≤ 2 ^ k`
(for `n ≥ 1`).  For every input reachable in this program (player counts
far below `2 ^ 29`) the CPython double computation returns exactly this
value; the recurrence used below is `⌈log2 n⌉ = ⌈log2 ⌈n / 2⌉⌉ + 1` for
`n ≥ 2`, with `⌈n / 2⌉ = (n + 1) / 2` in integer division. -/

/-- Fuel-indexed helper for `ceilLog2`; `fuel ≥ n` suffices because the
argument `(n + 1) / 2` strictly decreases while `n ≥ 2`. -/
def ceilLog2Aux : Nat → Nat → Nat
  | 0, _ => 0
  | fuel + 1, n => if n ≤ 1 then 0 else ceilLog2Aux fuel ((n + 1) / 2) + 1

/-- Exact value of `int(math.ceil(math.log(n, 2)))` for a positive count
`n` (and `0` for `n = 0`, an input the program never produces). -/
def ceilLog2 (n : Nat) : Nat := ceilLog2Aux n n

/-! ## Round naming (`src/challonge.py`, lines 79-111) -/

/-- Embeds `Challonge.num_winners_rounds`:
`int(math.ceil(math.log(num_players, 2))) + 1`. -/
def num_winners_rounds (num_players : Nat) : Nat :=
  ceilLog2 num_players + 1

/-- Embeds `Challonge.num_losers_rounds`:
`int(math.ceil(log2) + math.ceil(math.log(log2, 2)))` where
`log2 = math.log(num_players, 2)`.  For an integer `num_players ≥ 2` the
real number `⌈log2 (log2 num_players)⌉` equals
`⌈log2 ⌈log2 num_players⌉⌉` (both are the least `k` with
`num_players ≤ 2 ^ (2 ^ k)`), so the inner term is embedded as
`ceilLog2 (ceilLog2 num_players)`.  (`num_players ≤ 1` makes the Python
call raise a math domain error; the claims only concern
`num_players > 1`.) -/
def num_losers_rounds (num_players : Nat) : Nat :=
  ceilLog2 num_players + ceilLog2 (ceilLog2 num_players)

/-- Embeds `Challonge.round_name` (with the player count passed
explicitly; the Python method reads `len(self.get_players())`).  Mirrors
the chain: the grand-finals check, then the `F`/`SF`/`QF` suffix tiers,
each matching either a winners-side round or a losers-side round against
the (possibly decremented) `losers_rounds`, with default suffix
`'R' + abs(round_num)`. -/
def round_name (num_players : Nat) (round_num : Int) : String :=
  let winners_rounds : Int := num_winners_rounds num_players
  let losers_rounds0 : Int := num_losers_rounds num_players
  -- Python comment: "Special case for when #players is a power of 2."
  let losers_rounds : Int :=
    if winners_rounds = losers_rounds0 then losers_rounds0 - 1 else losers_rounds0
  let pre : String := if round_num > 0 then "W" else "L"
  if round_num = winners_rounds then "GF"
  else if round_num = winners_rounds - 1 ∨ round_num = -losers_rounds then
    pre ++ "F"
  else if round_num = winners_rounds - 2 ∨ round_num = -losers_rounds + 1 then
    pre ++ "SF"
  else if round_num = winners_rounds - 3 ∨ round_num = -losers_rounds + 2 then
    pre ++ "QF"
  else
    pre ++ ("R" ++ toString round_num.natAbs)

/-! ## Python string primitives

Lean core's `String.toLower`, `String.trim` and `String.splitOn` are
defined by well-founded recursion on string positions, which the kernel
cannot evaluate; the embeddings below are structural on the character
list, so every definition in this file evaluates by `decide`/`rfl`. -/

/-- Python `s.lower()` (ASCII case mapping; every name involved in the
claims is ASCII, where CPython agrees). -/
def pyLower (s : String) : String := String.mk (s.data.map Char.toLower)

/-- Python `s.strip()`: remove leading and trailing whitespace.
(CPython strips all Unicode whitespace; the inputs involved only carry
ASCII whitespace, where `Char.isWhitespace` agrees.) -/
def pyStrip (s : String) : String :=
  String.mk
    (((s.data.dropWhile Char.isWhitespace).reverse.dropWhile
        Char.isWhitespace).reverse)

/-- Split a character list at every occurrence of `sep`, keeping empty
chunks, like Python `str.split` with a one-character separator. -/
def splitOnChar (sep : Char) : List Char → List (List Char)
  | [] => [[]]
  | c :: rest =>
    let r := splitOnChar sep rest
    if c = sep then [] :: r
    else
      match r with
      | h :: t => (c :: h) :: t
      | [] => [[c]]

/-- Python `s.split(sep)` for a one-character separator: `''.split('-')`
is `['']`, separators at the ends produce empty chunks. -/
def pySplit (s : String) (sep : Char) : List String :=
  (splitOnChar sep s.data).map String.mk

/-! ## Participant records (`src/challonge.py`, lines 113-124 and 207-211)

A raw participant record is a JSON dictionary; the two fields the claims
are about may be missing from the dictionary, present with value `None`,
or present with a string value. -/

/-- State of one field of a participant record: the key is absent, the
key is present with Python `None`, or present with a string. -/
inductive Field where
  | absent
  | vnone
  | vstr (s : String)
deriving DecidableEq

/-- The Python errors the participant-record code can raise: `KeyError`
from `d['k']` on a missing key, `AttributeError` from `None.strip()`. -/
inductive PyError where
  | keyError (key : String)
  | attributeError
deriving DecidableEq

deriving instance DecidableEq for Except

/-- Python truthiness of `d.get('k')`: an absent key gives `None`
(falsy); `None` is falsy; a string is truthy iff non-empty. -/
def truthy : Field → Bool
  | .absent => false
  | .vnone => false
  | .vstr s => s != ""

/-- Embeds the branch of `Challonge.set_player_map` that computes one
display name from a record's `name` and `username` fields:
`p['participant']['name'].strip()` when `p['participant'].get('name')`
is truthy, else `p['participant'].get('username', '<unknown>').strip()`.
A present-but-`None` username makes `.strip()` raise `AttributeError`. -/
def set_player_map_name (name username : Field) : Except PyError String :=
  if truthy name then
    match name with
    | .vstr s => .ok (pyStrip s)
    | _ => .error .attributeError  -- unreachable: only a string is truthy
  else
    match username with
    | .absent => .ok (pyStrip "<unknown>")
    | .vnone => .error .attributeError
    | .vstr u => .ok (pyStrip u)

/-- Embeds `p['participant']['username'].strip()`: direct indexing, so a
missing key raises `KeyError` and a `None` value raises
`AttributeError` from `.strip()`. -/
def username_index_strip (username : Field) : Except PyError String :=
  match username with
  | .absent => .error (.keyError "username")
  | .vnone => .error .attributeError
  | .vstr u => .ok (pyStrip u)

/-- Embeds the list-comprehension body of `Challonge.get_players`:
`p['participant']['name'].strip() if p['participant']['name'] else
p['participant']['username'].strip()`.  The condition indexes `'name'`
directly, so an absent key raises `KeyError` before anything else. -/
def get_players_name (name username : Field) : Except PyError String :=
  match name with
  | .absent => .error (.keyError "name")
  | .vnone => username_index_strip username
  | .vstr s => if s != "" then .ok (pyStrip s) else username_index_strip username

/-- Modelled from the claim's words (deliberately NOT from the code, for
comparison): display name is the provided name if non-blank after
trimming, else the provided username if present, else the literal
placeholder. -/
def claimed_display_name (name username : Field) : String :=
  let fallback : String :=
    match username with
    | .vstr u => pyStrip u
    | _ => "<unknown>"
  match name with
  | .vstr s => if pyStrip s != "" then pyStrip s else fallback
  | _ => fallback

/-! ## The report pipeline (`src/auTO/auTO.py`) -/

/-- Embeds the module-level helper `istrcmp`:
`a.lower() == b.lower()` (ASCII names; `String.toLower` and CPython
`str.lower` agree on ASCII). -/
def istrcmp (a b : String) : Bool := pyLower a == pyLower b

/-- The fields of an open-match dictionary built by
`Challonge.get_matches` that the report pipeline reads. -/
structure MatchInfo where
  id : Nat
  player1 : String
  player2 : String
  player1_id : Nat
  player2_id : Nat
deriving DecidableEq

/-- Embeds `Tournament.find_match`: the first open match whose two
player names, lowercased, contain the lowercased username. -/
def find_match (open_matches : List MatchInfo) (username : String) :
    Option MatchInfo :=
  open_matches.find? fun m =>
    pyLower username == pyLower m.player1 || pyLower username == pyLower m.player2

/-- The opposing player picked by `Tournament.add_to_recently_called`:
`match['player2']` if `istrcmp(match['player1'], reporter)` else
`match['player1']`. -/
def other_player (m : MatchInfo) (reporter : String) : String :=
  if istrcmp m.player1 reporter then m.player2 else m.player1

/-- Python string slice `s[::-1]`: character-by-character reversal. -/
def strRev (s : String) : String := String.mk s.data.reverse

/-- Decimal digit run to a number; `none` on an empty or non-digit run. -/
def digitsVal (cs : List Char) : Option Nat :=
  match cs with
  | [] => none
  | _ =>
    cs.foldl
      (fun acc c =>
        match acc with
        | none => none
        | some v => if c.isDigit then some (v * 10 + (c.toNat - 48)) else none)
      (some 0)

/-- Embeds Python `int(s)` on a string: surrounding whitespace is
stripped, an optional sign is allowed, and the rest must be decimal
digits; `none` models the `ValueError` raised otherwise.  (CPython also
accepts underscores between digits; none of the inputs involved here
contain one.) -/
def pyInt (s : String) : Option Int :=
  match (pyStrip s).data with
  | '-' :: rest => (digitsVal rest).map fun v => -(v : Int)
  | '+' :: rest => (digitsVal rest).map fun v => (v : Int)
  | cs => (digitsVal cs).map fun v => (v : Int)

/-- Embeds `re.match(r'\d-\d', scores_csv) is not None`: an (unanchored
at the end) match at the start of the string, i.e. the first three
characters are digit, dash, digit.  (`\d` without `re.ASCII` also covers
other Unicode digits; the inputs involved are ASCII.) -/
def score_regex_match (s : String) : Bool :=
  match s.data with
  | c0 :: c1 :: c2 :: _ => c0.isDigit && (c1 == '-') && c2.isDigit
  | _ => false

/-- Modelled from the claim's words (deliberately NOT from the code, for
comparison): the whole string is `<int>-<int>`, two non-empty digit
runs separated by a single dash. -/
def spec_int_dash_int (s : String) : Bool :=
  match pySplit s '-' with
  | [a, b] =>
    a != "" && a.data.all Char.isDigit && b != "" && b.data.all Char.isDigit
  | _ => false

/-- Outcome of one invocation of the `report` command
(`src/auTO/auTO.py`, lines 372-416), as seen by the bracket service and
the channel. -/
inductive ReportOutcome where
  | malformed
  | valueError
  | indexError
  | tie
  | throttled
  | notFound
  | sent (matchId : Nat) (winner_id : Nat) (scores_csv : String)
deriving DecidableEq

/-- Embeds `TOCommands.report` up to the call of
`tourney.report_match`, with the tournament state that the command reads
(`recently_called`, `open_matches`) passed explicitly.  Mirrors, in
order: the `\d-\d` regex check, `[int(n) for n in scores_csv.split('-')]`,
the win/tie comparison of `scores[0]` and `scores[1]`, the
`username.lower() in tourney.recently_called` throttle check, the
`find_match` lookup, and the player2 reversal
(`scores_csv = scores_csv[::-1]; player1_win = not player1_win`).
`indexError` marks the unreachable case of fewer than two score parts
(the regex guarantees a dash, so `split` yields at least two). -/
def report (recently_called : Finset String) (open_matches : List MatchInfo)
    (username scores_csv : String) : ReportOutcome :=
  if ¬ score_regex_match scores_csv then .malformed
  else
    match (pySplit scores_csv '-').mapM pyInt with
    | none => .valueError
    | some scores =>
      match scores with
      | s0 :: s1 :: _ =>
        if s0 > s1 then
          reportAfterScores recently_called open_matches username scores_csv true
        else if s0 < s1 then
          reportAfterScores recently_called open_matches username scores_csv false
        else .tie
      | _ => .indexError

where
  /-- Steps of `report` from the throttle check on. -/
  reportAfterScores (recently_called : Finset String)
      (open_matches : List MatchInfo) (username scores_csv : String)
      (player1_win : Bool) : ReportOutcome :=
    if pyLower username ∈ recently_called then .throttled
    else
      match find_match open_matches username with
      | none => .notFound
      | some m =>
        let scores_csv' :=
          if istrcmp username m.player2 then strRev scores_csv else scores_csv
        let player1_win' :=
          if istrcmp username m.player2 then !player1_win else player1_win
        if player1_win' then .sent m.id m.player1_id scores_csv'
        else .sent m.id m.player2_id scores_csv'

/-! ## Tournament.report_match as a sequence of effects
(`src/auTO/auTO.py`, lines 80-94) -/

/-- The primitive effects performed by `Tournament.report_match` and
`Tournament.add_to_recently_called`, in program order. -/
inductive TOp where
  | addExcl (name : String)
  | sleepOp (seconds : Nat)
  | removeExcl (name : String)
  | sendReport (matchId : Nat) (winner_id : Nat) (scores_csv : String)
  | removeCalled (matchId : Nat)
deriving DecidableEq

/-- The mutable tournament state these effects touch. -/
structure TState where
  recently_called : Finset String
  called_matches : Finset Nat
deriving DecidableEq

/-- Embeds `Tournament.add_to_recently_called`: add the opposing
player's name to `recently_called`, `await asyncio.sleep(5)`, then
remove it again. -/
def add_to_recently_called_ops (m : MatchInfo) (reporter : String) : List TOp :=
  let other := other_player m reporter
  [.addExcl other, .sleepOp 5, .removeExcl other]

/-- Embeds `Tournament.report_match`: `await
add_to_recently_called(...)`, then the report mutation
`gar.report_match(match['id'], winner_id, scores_csv)`, then
`called_matches.remove(match['id'])`. -/
def report_match_ops (m : MatchInfo) (winner_id : Nat)
    (reporter scores_csv : String) : List TOp :=
  add_to_recently_called_ops m reporter ++
    [.sendReport m.id winner_id scores_csv, .removeCalled m.id]

/-- Effect of one primitive on the state; `none` models the `KeyError`
that Python `set.remove` raises when the element is absent. -/
def applyOp (st : TState) : TOp → Option TState
  | .addExcl n => some { st with recently_called := insert n st.recently_called }
  | .sleepOp _ => some st
  | .removeExcl n =>
    if n ∈ st.recently_called then
      some { st with recently_called := st.recently_called.erase n }
    else none
  | .sendReport _ _ _ => some st
  | .removeCalled i =>
    if i ∈ st.called_matches then
      some { st with called_matches := st.called_matches.erase i }
    else none

/-- Run a sequence of effects from a state. -/
def execOps (st : TState) : List TOp → Option TState
  | [] => some st
  | op :: rest =>
    match applyOp st op with
    | none => none
    | some st' => execOps st' rest

/-! ## Finalization (`src/auTO/auTO.py`, lines 304-318) -/

/-- A Python value involved in the `e == 422` comparison: an `int`, or a
`ClientResponseError` instance carrying its HTTP status. -/
inductive PyVal where
  | int (n : Int)
  | exc (code : Nat)
deriving DecidableEq

/-- Python `==` on these values: two ints compare by value; a
`ClientResponseError` defines no `__eq__`, so comparing an exception
object with anything other than itself falls back to object identity
and yields `False` — in particular `e == 422` is always `False`. -/
def pyEq : PyVal → PyVal → Bool
  | .int a, .int b => a == b
  | _, _ => false

/-- Result of the finalize attempt inside `TOCommands.end_tournament`. -/
inductive FinalizeCall where
  | ok
  | clientResponseError (code : Nat)
deriving DecidableEq

/-- What `end_tournament` does after the TO confirms. -/
inductive EndOutcome where
  | resultsPosted
  | raised (code : Nat)
deriving DecidableEq

/-- Embeds the `try`/`except` of `TOCommands.end_tournament`:
`await tourney.gar.finalize()`; on `ClientResponseError e`, `if e == 422:
pass else: raise e`; when no exception propagates, `await
self.results(ctx)`. -/
def end_tournament_finalize (res : FinalizeCall) : EndOutcome :=
  match res with
  | .ok => .resultsPosted
  | .clientResponseError code =>
    if pyEq (.exc code) (.int 422) then .resultsPosted else .raised code

/-! ## The session registry (`src/auTO/auTO.py`, lines 125-138, 236-255) -/

/-- A `tournament_map` key: `(ctx.guild, ctx.channel)`, both modelled as
numeric ids. -/
abbrev ChKey := Nat × Nat

/-- Result of the `start` command as far as the session registry is
concerned. -/
inductive StartResult where
  | alreadyRunning
  | invalidUrl
  | noApiKey
  | started (t : Nat)
deriving DecidableEq

/-- Embeds the session-registry behaviour of `TOCommands.start`:
`if self.get_tourney(ctx) is not None:` send "already in progress" and
return with the map untouched; otherwise `extract_id` may fail
(`ValueError` → return), the API key may be refused (return), and only
then does `tourney_start` run `self.tournament_map[key] = tourney`.
Tournaments are modelled by a numeric id; the dict is a function to
`Option`.  (The later paths that stop a freshly inserted tournament —
invalid key, pending or ended state — run only in this else-branch and
never touch a pre-existing entry.) -/
def start_cmd (tournament_map : ChKey → Option Nat) (key : ChKey)
    (extracted_id : Option Nat) (api_key : Option Nat) (newTournament : Nat) :
    StartResult × (ChKey → Option Nat) :=
  match tournament_map key with
  | some _ => (.alreadyRunning, tournament_map)
  | none =>
    match extracted_id with
    | none => (.invalidUrl, tournament_map)
    | some _ =>
      match api_key with
      | none => (.noApiKey, tournament_map)
      | some _ =>
        (.started newTournament,
         fun k => if k = key then some newTournament else tournament_map k)

/-- The open match used as the concrete scenario of several claims:
"Alice" (id 10) versus "Bob" (id 20), match id 1. -/
def abMatch : MatchInfo :=
  { id := 1, player1 := "Alice", player2 := "Bob",
    player1_id := 10, player2_id := 20 }

/-- The ten ASCII digits, for quantifying over single-digit scores. -/
def digitChars : List Char :=
  ['0', '1', '2', '3', '4', '5', '6', '7', '8', '9']

/-! ## Helper lemmas -/

theorem ceilLog2Aux_le_iff :
    ∀ fuel n k : Nat, n ≤ fuel → (ceilLog2Aux fuel n ≤ k ↔ n ≤ 2 ^ k) := by
  intro fuel
  induction fuel with
  | zero =>
    intro n k hn
    have hn0 : n = 0 := Nat.le_zero.mp hn
    subst hn0
    simp [ceilLog2Aux]
  | succ fuel ih =>
    intro n k hn
    by_cases h1 : n ≤ 1
    · have hexp : 1 ≤ 2 ^ k := Nat.one_le_two_pow
      have hval : ceilLog2Aux (fuel + 1) n = 0 := by
        simp [ceilLog2Aux, h1]
      rw [hval]
      omega
    · have h2 : 2 ≤ n := by omega
      have hm : (n + 1) / 2 ≤ fuel := by omega
      have hval : ceilLog2Aux (fuel + 1) n = ceilLog2Aux fuel ((n + 1) / 2) + 1 := by
        simp [ceilLog2Aux, h1]
      rw [hval]
      cases k with
      | zero =>
        have hone : ¬ n ≤ 2 ^ 0 := by
          rw [pow_zero]
          omega
        omega
      | succ j =>
        have hih := ih ((n + 1) / 2) j hm
        have hpow : 2 ^ (j + 1) = 2 * 2 ^ j := by
          rw [Nat.pow_succ]
          ring
        omega

theorem ceilLog2_le_iff (n k : Nat) : ceilLog2 n ≤ k ↔ n ≤ 2 ^ k :=
  ceilLog2Aux_le_iff n n k le_rfl

theorem ceilLog2_eq_iff (n k : Nat) (hk : 0 < k) :
    ceilLog2 n = k ↔ 2 ^ (k - 1) < n ∧ n ≤ 2 ^ k := by
  have h1 := ceilLog2_le_iff n k
  have h2 := ceilLog2_le_iff n (k - 1)
  omega

/-! ## Claim theorems -/

/-- C1 (code evaluated at the failing input).  The claim says the
second `report` call of the other player is always throttled, because
the throttle check is case-insensitive.  In the code,
`add_to_recently_called` adds the opposing player's display name to
`recently_called` verbatim, while the check compares
`username.lower()` against that set; with the match "Alice" vs "Bob"
and Alice reporting first, the set holds `"Bob"` during the exclusion
delay, `"bob"` is not a member, and Bob's concurrent call is NOT
throttled: it reaches the bracket service as a second report mutation
(match 1, winner 10, scores `"2-0"`). -/
theorem throttle_check_misses_cased_name :
    other_player abMatch "Alice" = "Bob" ∧
    (pyLower "Bob" ∈ ({"Bob"} : Finset String)) = False ∧
    report {"Bob"} [abMatch] "Bob" "0-2" = .sent 1 10 "2-0" := by
  decide

/-- C2 counterexample.  The claim states `name(1, 8) = "WR1"`; the code
returns `"WQF"` because `round_num = 1` equals `winners_rounds - 3` and
so hits the `QF` suffix tier before the default `R1` suffix is used. -/
theorem round_name_eight_round_one_not_WR1 :
    round_name 8 1 = "WQF" ∧ round_name 8 1 ≠ "WR1" := by
  decide

/-- C2 as amended.  For `player_count = 8`: `winners_rounds = 4`,
`name(4, 8) = "GF"`, `name(3, 8) = "WF"`, `name(2, 8) = "WSF"`,
`name(-1, 8) = "LR1"` as claimed, but `name(1, 8) = "WQF"` (the `QF`
tier, not the default `R1` tier). -/
theorem round_name_eight_players :
    num_winners_rounds 8 = 4 ∧
    round_name 8 4 = "GF" ∧
    round_name 8 3 = "WF" ∧
    round_name 8 2 = "WSF" ∧
    round_name 8 1 = "WQF" ∧
    round_name 8 (-1) = "LR1" := by
  decide

/-- C3 counterexample.  The claim says the `losers_rounds` decrement
fires exactly at powers of two and that `name(-1, 4)` lands in the `F`
suffix tier.  At the power of two `player_count = 8` the code computes
`winners_rounds = 4 ≠ 5 = losers_rounds`, so no decrement fires; and
`name(-1, 4)` is `"LSF"` (the `SF` tier), not `"LF"` and not `"LR1"`. -/
theorem losers_decrement_not_power_of_two :
    (8 : Nat) = 2 ^ 3 ∧
    num_winners_rounds 8 ≠ num_losers_rounds 8 ∧
    round_name 4 (-1) = "LSF" ∧
    round_name 4 (-1) ≠ "LF" := by
  decide

/-- C3 as amended.  The decrement condition in `round_name` is
`winners_rounds == losers_rounds`, which for every `player_count > 1`
holds exactly when `player_count` is 3 or 4 — not exactly at powers of
two (8, 16, ... get no decrement, the non-power 3 does).  For
`player_count = 4` the decrement does apply and `name(-1, 4)` resolves
to `"LSF"` — the `SF` suffix tier, not the `R1` tier (and not `F`). -/
theorem losers_decrement_iff_three_or_four :
    (∀ n : Nat, 1 < n →
      (num_winners_rounds n = num_losers_rounds n ↔ n = 3 ∨ n = 4)) ∧
    round_name 4 (-1) = "LSF" := by
  constructor
  · intro n hn
    unfold num_winners_rounds num_losers_rounds
    have e1 := ceilLog2_eq_iff (ceilLog2 n) 1 (by norm_num)
    have e2 := ceilLog2_le_iff n 1
    have e3 := ceilLog2_le_iff n 2
    norm_num at e1 e2 e3
    omega
  · decide

/-- C3 witness: the amended equivalence evaluated at `player_count = 3`
(a non-power of two where the decrement does fire). -/
theorem losers_decrement_iff_three_or_four_witness :
    ((1 < 3 ∧ (num_winners_rounds 3 = num_losers_rounds 3 ↔ (3 = 3 ∨ 3 = 4))) ∧
      round_name 4 (-1) = "LSF") :=
  ⟨⟨by decide, losers_decrement_iff_three_or_four.1 3 (by decide)⟩,
    losers_decrement_iff_three_or_four.2⟩

/-- C4 counterexample.  The claim says the two halves of the score
string are swapped, so the service always receives
`<player1_score>-<player2_score>`.  The code reverses the string
character by character: the input `"1-23"` (accepted by the `\d-\d`
prefix check) from reporter "Bob" (player2, scores 1 and 23) is
transmitted as `"32-1"`, not as the half-swap `"23-1"`. -/
theorem report_reverse_not_half_swap :
    report ∅ [abMatch] "Bob" "1-23" = .sent 1 10 "32-1" ∧
    (ReportOutcome.sent 1 10 "32-1" ≠ .sent 1 10 "23-1") := by
  decide

/-- C4 as amended.  The reporter-in-player2-slot transformation is a
character-by-character string reversal with the win boolean inverted,
which coincides with swapping the two halves exactly for the
single-digit scores the step-1 check is built around: for the open
match "Alice" (id 10) vs "Bob" (id 20) and any two distinct digits, Bob
submitting `"<d1>-<d2>"` transmits `"<d2>-<d1>"` and selects winner 10
when `d1 < d2` (Alice won) and 20 otherwise.  In particular `"1-3"`
transmits `"3-1"` with winner id 10. -/
theorem report_player2_single_digit_swap :
    ∀ d1 ∈ digitChars, ∀ d2 ∈ digitChars, d1 ≠ d2 →
      report ∅ [abMatch] "Bob" (String.mk [d1, '-', d2]) =
        .sent 1 (if d1 < d2 then 10 else 20) (String.mk [d2, '-', d1]) := by
  decide

/-- C4 witness: the amended statement at the claim's own input
`"1-3"`. -/
theorem report_player2_single_digit_swap_witness :
    ('1' ∈ digitChars ∧ '3' ∈ digitChars ∧ ('1' : Char) ≠ '3') ∧
      report ∅ [abMatch] "Bob" "1-3" = .sent 1 10 "3-1" :=
  ⟨⟨by decide, by decide, by decide⟩,
    report_player2_single_digit_swap '1' (by decide) '3' (by decide) (by decide)⟩

/-- C5 counterexample.  The claim says every `<int>-<int>` string is
accepted past step 1.  The code's check is `re.match(r'\d-\d', ...)`,
which requires a single digit before the dash: the well-formed score
`"10-2"` is rejected. -/
theorem score_regex_rejects_multidigit :
    spec_int_dash_int "10-2" = true ∧ score_regex_match "10-2" = false := by
  decide

/-- C5 as amended.  Step 1 accepts exactly the strings whose first
three characters are digit, dash, digit — single-digit scores with
arbitrary trailing characters.  Hence multi-digit first scores such as
`"10-2"` are rejected, while strings with trailing garbage such as
`"1-2xyz"` are accepted past step 1 even though they are not of the
form `<int>-<int>`. -/
theorem score_regex_prefix_characterization :
    (∀ s : String, score_regex_match s = true ↔
      ∃ (d1 d2 : Char) (rest : List Char),
        s.data = d1 :: '-' :: d2 :: rest ∧
        d1.isDigit = true ∧ d2.isDigit = true) ∧
    score_regex_match "1-2xyz" = true ∧
    spec_int_dash_int "1-2xyz" = false := by
  refine ⟨fun s => ?_, by decide, by decide⟩
  obtain ⟨data⟩ := s
  cases data with
  | nil => simp [score_regex_match]
  | cons c0 t0 =>
    cases t0 with
    | nil => simp [score_regex_match]
    | cons c1 t1 =>
      cases t1 with
      | nil => simp [score_regex_match]
      | cons c2 rest =>
        simp only [score_regex_match, Bool.and_eq_true, beq_iff_eq]
        constructor
        · rintro ⟨⟨h0, h1⟩, h2⟩
          subst h1
          exact ⟨c0, c2, rest, rfl, h0, h2⟩
        · rintro ⟨d1, d2, rest2, heq, hd1, hd2⟩
          simp only [List.cons.injEq] at heq
          obtain ⟨e0, e1, e2, -⟩ := heq
          subst e0
          subst e1
          subst e2
          exact ⟨⟨hd1, rfl⟩, hd2⟩

/-- C6 (code evaluated at the failing input).  The claim says a 422
"already finalized" response is treated as success.  The handler
compares the exception object itself with the integer
(`if e == 422`), which is always `False` in Python, so the 422 error is
re-raised and the results are never posted. -/
theorem finalize_422_reraised :
    end_tournament_finalize (.clientResponseError 422) = .raised 422 ∧
    pyEq (.exc 422) (.int 422) = false := by
  decide

/-- C7 counterexample.  The claim says a whitespace-only name resolves
to the username, never to the empty string.  The code tests truthiness
BEFORE stripping: `" "` is a non-empty string, so the truthy branch
strips it to `""` and registers the empty string, where the claim's
rule would give `"bob"`. -/
theorem blank_name_registers_empty_string :
    set_player_map_name (.vstr " ") (.vstr "bob") = .ok "" ∧
    (Except.ok "" : Except PyError String) ≠ .ok "bob" ∧
    claimed_display_name (.vstr " ") (.vstr "bob") = "bob" := by
  decide

/-- C7 as amended.  The registered display name is the trimmed name
whenever the raw name is a non-empty string (so a whitespace-only name
yields the empty string, not the username); on every other record —
name absent, `None`, or empty, username a string or absent — the code
agrees with the claim's rule (username `None` raises and is outside
both).  Formally: away from the whitespace-only-name case the code
equals the claimed rule. -/
theorem set_player_map_name_matches_claim_off_blank :
    ∀ name username : Field, username ≠ .vnone →
      (∀ s, name = .vstr s → s ≠ "" → pyStrip s ≠ "") →
      set_player_map_name name username =
        .ok (claimed_display_name name username) := by
  intro name username hu hblank
  cases name with
  | absent =>
    cases username with
    | absent => rfl
    | vnone => exact absurd rfl hu
    | vstr u => rfl
  | vnone =>
    cases username with
    | absent => rfl
    | vnone => exact absurd rfl hu
    | vstr u => rfl
  | vstr s =>
    by_cases hs : s = ""
    · subst hs
      cases username with
      | absent => rfl
      | vnone => exact absurd rfl hu
      | vstr u => rfl
    · have hps : pyStrip s ≠ "" := hblank s rfl hs
      have h1 : (s != "") = true := by simp [hs]
      have h2 : (pyStrip s != "") = true := by simp [hps]
      cases username with
      | absent => simp [set_player_map_name, claimed_display_name, truthy, h1, h2]
      | vnone => exact absurd rfl hu
      | vstr u => simp [set_player_map_name, claimed_display_name, truthy, h1, h2]

/-- C7 witness: the amended agreement at the record
`name = "Mango "` (non-blank after trimming), `username` absent. -/
theorem set_player_map_name_matches_claim_off_blank_witness :
    (Field.absent ≠ Field.vnone) ∧
      set_player_map_name (.vstr "Mango ") .absent =
        .ok (claimed_display_name (.vstr "Mango ") .absent) :=
  ⟨by decide,
    set_player_map_name_matches_claim_off_blank (.vstr "Mango ") .absent
      (by decide)
      (fun s hs hne => by
        cases Field.vstr.inj hs
        decide)⟩

/-- C8.  Starting a session on a `(guild, channel)` key that already
holds a tournament returns the already-running rejection and leaves the
registry untouched: the mapping object is returned unchanged and the
key still holds the original tournament. -/
theorem start_already_running_preserves_map :
    ∀ (tournament_map : ChKey → Option Nat) (key : ChKey)
      (eid ak : Option Nat) (nt t : Nat),
      tournament_map key = some t →
      start_cmd tournament_map key eid ak nt = (.alreadyRunning, tournament_map) ∧
      (start_cmd tournament_map key eid ak nt).2 key = some t := by
  intro tournament_map key eid ak nt t h
  refine ⟨?_, ?_⟩ <;> simp [start_cmd, h]

/-- C8 witness: a registry holding tournament 7 at key (1, 2) rejects a
second start at (1, 2) and keeps the entry. -/
theorem start_already_running_preserves_map_witness :
    ((fun k : ChKey => if k = ((1 : Nat), (2 : Nat)) then some 7 else none)
        ((1 : Nat), (2 : Nat)) = some 7) ∧
      (start_cmd
          (fun k : ChKey => if k = ((1 : Nat), (2 : Nat)) then some 7 else none)
          ((1 : Nat), (2 : Nat)) none none 9 =
        (.alreadyRunning,
          fun k : ChKey => if k = ((1 : Nat), (2 : Nat)) then some 7 else none) ∧
        (start_cmd
            (fun k : ChKey => if k = ((1 : Nat), (2 : Nat)) then some 7 else none)
            ((1 : Nat), (2 : Nat)) none none 9).2 ((1 : Nat), (2 : Nat)) =
          some 7) :=
  ⟨rfl, start_already_running_preserves_map _ _ none none 9 7 rfl⟩

/-- C9.  `report_match` performs, in order: add the opposing player's
name to the exclusion set, the fixed 5-unit delay, remove that name,
and only then the report mutation and the `called_matches` removal; in
every state where the opponent's name is not already excluded and the
match id is in `called_matches`, the call succeeds and the exclusion
set after the call equals the exclusion set before it. -/
theorem report_match_restores_exclusion :
    ∀ (st : TState) (m : MatchInfo) (wid : Nat) (reporter s : String),
      other_player m reporter ∉ st.recently_called →
      m.id ∈ st.called_matches →
      execOps st (report_match_ops m wid reporter s) =
        some ⟨st.recently_called, st.called_matches.erase m.id⟩ ∧
      report_match_ops m wid reporter s =
        [.addExcl (other_player m reporter), .sleepOp 5,
         .removeExcl (other_player m reporter),
         .sendReport m.id wid s, .removeCalled m.id] := by
  intro st m wid reporter s h1 h2
  refine ⟨?_, rfl⟩
  simp [report_match_ops, add_to_recently_called_ops, execOps, applyOp,
    Finset.mem_insert_self, h2, Finset.erase_insert h1]

/-- C9 witness: the frame property at the state with an empty exclusion
set and called match 1, for Alice's report on the Alice/Bob match. -/
theorem report_match_restores_exclusion_witness :
    (other_player abMatch "Alice" ∉ (∅ : Finset String) ∧
      abMatch.id ∈ ({1} : Finset Nat)) ∧
      execOps ⟨∅, {1}⟩ (report_match_ops abMatch 10 "Alice" "3-1") =
        some ⟨∅, ({1} : Finset Nat).erase 1⟩ :=
  ⟨⟨by decide, by decide⟩,
    (report_match_restores_exclusion ⟨∅, {1}⟩ abMatch 10 "Alice" "3-1"
        (by decide) (by decide)).1⟩

/-- C10.  `get_players` is partial where the directory build is total:
a record whose name key is absent, `None` or empty and which has no
username key makes `get_players` raise a `KeyError` while
`set_player_map` registers `"<unknown>"` for the same record; and on
every record with a present-but-falsy name and a string username, the
two agree on the stripped username. -/
theorem get_players_partial_directory_total :
    (∀ name : Field, (name = .absent ∨ name = .vnone ∨ name = .vstr "") →
      (∃ k, get_players_name name .absent = .error (.keyError k)) ∧
      set_player_map_name name .absent = .ok "<unknown>") ∧
    (∀ (name : Field) (u : String), (name = .vnone ∨ name = .vstr "") →
      get_players_name name (.vstr u) = .ok (pyStrip u) ∧
      set_player_map_name name (.vstr u) = .ok (pyStrip u)) := by
  constructor
  · rintro name (rfl | rfl | rfl) <;> exact ⟨⟨_, rfl⟩, rfl⟩
  · rintro name u (rfl | rfl) <;> exact ⟨rfl, rfl⟩

/-- C10 witness: a record with a `None` name and no username key, and a
record with an empty name and username `"mang0"`. -/
theorem get_players_partial_directory_total_witness :
    ((Field.vnone = Field.absent ∨ Field.vnone = Field.vnone ∨
        Field.vnone = Field.vstr "") ∧
      ((∃ k, get_players_name .vnone .absent = .error (.keyError k)) ∧
        set_player_map_name .vnone .absent = .ok "<unknown>")) ∧
      (get_players_name (.vstr "") (.vstr "mang0") = .ok (pyStrip "mang0") ∧
        set_player_map_name (.vstr "") (.vstr "mang0") = .ok (pyStrip "mang0")) :=
  ⟨⟨Or.inr (Or.inl rfl),
      get_players_partial_directory_total.1 .vnone (Or.inr (Or.inl rfl))⟩,
    get_players_partial_directory_total.2 (.vstr "") "mang0" (Or.inr rfl)⟩

end AuTO
